import Mathlib

/-!
Shallow embedding of `src/controllers/teacher.controller.js`: a five-handler
CRUD resource controller ("teachers") over a relational persistence gateway
(Sequelize-style).  Each Express handler is modelled as a pure function from
the request data and the database state to an HTTP response (and, for the
mutating handlers, the successor state and the trace of gateway calls made).
A thrown/rejected gateway error that the handler catches becomes a normal
`.ok` result carrying the 500 response; an error that escapes the handler
(no `try` around the call) is an `Except.error` — it crosses the HTTP
response boundary.
-/

namespace TeacherApi

/-- A Teacher row: surrogate integer key plus the two string fields. -/
structure Teacher where
  id : Nat
  name : String
  department : String
deriving Repr, DecidableEq

/-- A Course row, opaque except for its key and its foreign key to Teacher. -/
structure Course where
  id : Nat
  teacherId : Nat
deriving Repr, DecidableEq

/-- The persistence gateway's state: the teachers table (with its
auto-increment counter) and the courses table. -/
structure Db where
  teachers : List Teacher
  courses : List Course
  nextId : Nat
deriving Repr, DecidableEq

/-- Fault injection for the gateway: `some msg` on a field means that the
corresponding gateway call rejects with an error whose `.message` is `msg`
(connectivity failure, malformed query, ...). `none` everywhere means the
gateway behaves normally. -/
structure GatewayFault where
  countFails : Option String := none
  findAllFails : Option String := none
  createFails : Option String := none
  findByPkFails : Option String := none
  updateFails : Option String := none
  destroyFails : Option String := none
deriving Repr, DecidableEq

/-- The fault-free gateway. -/
def GatewayFault.ok : GatewayFault := {}

/-- Which include the controller may add to a query (`{ model: db.Course }`). -/
inductive IncludeModel where
  | course
deriving Repr, DecidableEq

/-- Response bodies the controller serializes (shapes are not unified:
`{ error: msg }` for 500s, `{ message: msg }` for 404/delete). -/
inductive RespBody where
  | entity (t : Teacher)
  | entityWithCourses (t : Teacher) (cs : List Course)
  | page (total : Nat) (pg : Int) (totalPages : Int) (data : List Teacher)
  | errorMsg (msg : String)
  | message (msg : String)
deriving Repr, DecidableEq

/-- An HTTP response: status code plus JSON body. -/
structure HttpResponse where
  status : Nat
  body : RespBody
deriving Repr, DecidableEq

/-- Gateway calls a handler can issue, for tracing which operations ran. -/
inductive GwCall where
  | findByPk (id : Nat)
  | update (id : Nat)
  | destroy (id : Nat)
deriving Repr, DecidableEq

/-! ## Query-string parsing (JavaScript semantics) -/

/-- Numeric value of a digit string, most significant first. -/
def digitsVal (ds : List Char) : Nat :=
  ds.foldl (fun acc c => 10 * acc + (c.toNat - 48)) 0

/-- Model of JavaScript `parseInt` on a string, for decimal numerals:
skip leading whitespace, read an optional sign, then the longest run of
decimal digits; `none` is `NaN` (no digit found).  Hexadecimal `0x`
literals are not modelled; no claim involves them. -/
def parseIntJS (s : String) : Option Int :=
  let cs := s.data.dropWhile (fun c => c = ' ' ∨ c = '\t' ∨ c = '\n' ∨ c = '\r')
  match cs with
  | '-' :: rest =>
      let ds := rest.takeWhile Char.isDigit
      if ds.isEmpty then none else some (-(digitsVal ds : Int))
  | '+' :: rest =>
      let ds := rest.takeWhile Char.isDigit
      if ds.isEmpty then none else some (digitsVal ds : Int)
  | _ =>
      let ds := cs.takeWhile Char.isDigit
      if ds.isEmpty then none else some (digitsVal ds : Int)

/-- `parseInt` applied to a possibly-absent query parameter
(`parseInt(undefined)` is `NaN`). -/
def parseIntOpt (s : Option String) : Option Int :=
  s.bind parseIntJS

/-- Model of the JavaScript fallback `x || d` applied to a `parseInt`
result: both `NaN` and `0` are falsy, so both select the default. -/
def jsOrDefault (x : Option Int) (d : Int) : Int :=
  match x with
  | none => d
  | some v => if v = 0 then d else v

/-- The query string of a List request (all parameters optional). -/
structure ListQuery where
  limit : Option String := none
  page : Option String := none
  sort : Option String := none
  populate : Option String := none
deriving Repr, DecidableEq

/-- Line 113: `const limit = parseInt(req.query.limit) || 10`. -/
def parseLimit (q : ListQuery) : Int :=
  jsOrDefault (parseIntOpt q.limit) 10

/-- Line 114: `const page = parseInt(req.query.page) || 1`. -/
def parsePage (q : ListQuery) : Int :=
  jsOrDefault (parseIntOpt q.page) 1

/-- Line 115: `const sort = req.query.sort === 'desc' ? 'DESC' : 'ASC'`;
`true` means descending. -/
def parseSort (q : ListQuery) : Bool :=
  q.sort = some "desc"

/-- Model of JavaScript `toLowerCase` on the character list of a string
(ASCII case mapping). -/
def jsToLower (cs : List Char) : List Char :=
  cs.map Char.toLower

/-- Line 116: `req.query.populate ? req.query.populate.toLowerCase() : ''`
(an absent or empty — falsy — parameter yields the empty string). -/
def parsePopulateStr (q : ListQuery) : List Char :=
  match q.populate with
  | none => []
  | some s => if s = "" then [] else jsToLower s.data

/-- Model of JavaScript `str.split(',')`: the maximal comma-free segments,
so `''` splits to `['']` and adjacent commas produce empty segments. -/
def splitComma : List Char → List (List Char)
  | [] => [[]]
  | c :: rest =>
      match splitComma rest with
      | [] => [[]]
      | grp :: grps => if c = ',' then [] :: grp :: grps else (c :: grp) :: grps

/-- Lines 124-127: `populate ? populate.split(',').map(model => model ===
'course' ? { model: db.Course } : null).filter(Boolean) : []`
(map-then-drop-nulls is `filterMap`). -/
def parseIncludes (populate : List Char) : List IncludeModel :=
  if populate = [] then []
  else (splitComma populate).filterMap
    (fun m => if m = "course".data then some IncludeModel.course else none)

/-- The argument object built for `db.Teacher.findAll({...})` (lines
120-128): limit, `offset: (page - 1) * limit`, order by id, includes. -/
structure FindAllArgs where
  limit : Int
  offset : Int
  desc : Bool
  includes : List IncludeModel
deriving Repr, DecidableEq

/-- The `findAll` argument object as `getAllTeachers` computes it from the
query string. -/
def listFindAllArgs (q : ListQuery) : FindAllArgs :=
  { limit := parseLimit q
    offset := (parsePage q - 1) * parseLimit q
    desc := parseSort q
    includes := parseIncludes (parsePopulateStr q) }

/-! ## Gateway operations (Sequelize/SQL semantics over the in-memory state) -/

/-- `db.Teacher.count()`: the unfiltered table row count. -/
def gwCount (db : Db) : Nat :=
  db.teachers.length

/-- `db.Teacher.findAll({limit, offset, order: [['id', sort]], include})`:
SQL orders the whole table by id (ascending or descending), then applies
OFFSET and LIMIT.  A negative limit or offset is clamped to 0 here; the
gateway's behaviour on negatives is implementation-defined and no theorem
below depends on that region. -/
def gwFindAll (db : Db) (a : FindAllArgs) : List Teacher :=
  let sorted :=
    if a.desc then List.insertionSort (fun x y => y.id ≤ x.id) db.teachers
    else List.insertionSort (fun x y => x.id ≤ y.id) db.teachers
  (sorted.drop a.offset.toNat).take a.limit.toNat

/-- `db.Teacher.findByPk(id)`: the row with that primary key, or null. -/
def gwFindByPk (db : Db) (id : Nat) : Option Teacher :=
  db.teachers.find? (fun t => t.id = id)

/-- The courses belonging to a teacher (the eager-loaded association). -/
def coursesOf (db : Db) (teacherId : Nat) : List Course :=
  db.courses.filter (fun c => c.teacherId = teacherId)

/-- The JSON body of a create request: `name`/`department` possibly absent
(the handler performs no validation of its own). -/
structure CreateBody where
  name : Option String := none
  department : Option String := none
deriving Repr, DecidableEq

/-- `db.Teacher.create(fields)`: the gateway's schema requires `name` and
`department` (notNull), rejects when either is missing, and otherwise
inserts a fresh row under the generated auto-increment key. -/
def gwCreate (db : Db) (b : CreateBody) : Except String (Teacher × Db) :=
  match b.name, b.department with
  | some n, some d =>
      let t : Teacher := ⟨db.nextId, n, d⟩
      Except.ok (t, { db with teachers := db.teachers ++ [t], nextId := db.nextId + 1 })
  | _, _ => Except.error "notNull Violation: Teacher field cannot be null"

/-- A partial update body: zero or more of `name`, `department`. -/
structure TeacherPatch where
  name : Option String := none
  department : Option String := none
deriving Repr, DecidableEq

/-- `teacher.update(req.body)`: partial merge — supplied fields overwrite,
omitted fields keep their current values; the key is untouched. -/
def applyPatch (t : Teacher) (p : TeacherPatch) : Teacher :=
  { t with name := p.name.getD t.name, department := p.department.getD t.department }

/-- Writing the updated row back: every row keeps its place, the row with
the given key is replaced. -/
def gwReplace (db : Db) (id : Nat) (t' : Teacher) : Db :=
  { db with teachers := db.teachers.map (fun u => if u.id = id then t' else u) }

/-- `teacher.destroy()`: hard delete of the row with that primary key. -/
def gwDestroy (db : Db) (id : Nat) : Db :=
  { db with teachers := db.teachers.filter (fun u => u.id ≠ id) }

/-! ## The five handlers -/

/-- `createTeacher` (lines 32-39): `db.Teacher.create(req.body)` inside
`try`, passing the body through unvalidated and unfiltered; 201 with the
created entity on success, 500 with `{ error: err.message }` on any
gateway error.  Returns the response and the successor state. -/
def createTeacher (g : GatewayFault) (db : Db) (body : CreateBody) :
    Except String (HttpResponse × Db) :=
  match g.createFails with
  | some m => Except.ok (⟨500, RespBody.errorMsg m⟩, db)
  | none =>
      match gwCreate db body with
      | Except.error m => Except.ok (⟨500, RespBody.errorMsg m⟩, db)
      | Except.ok (t, db') => Except.ok (⟨201, RespBody.entity t⟩, db')

/-- `getAllTeachers` (lines 111-142).  Parses `limit`/`page`/`sort`/
`populate`, then awaits `db.Teacher.count()` OUTSIDE the `try` block
(line 117) — a rejection there escapes the handler as `Except.error` and
no response is produced.  Inside `try`: `findAll` with the computed
arguments, then 200 with `{ meta: { total, page, totalPages:
Math.ceil(total / limit) }, data }`; a `findAll` rejection is caught and
becomes 500 with `{ error: err.message }`. -/
def getAllTeachers (g : GatewayFault) (db : Db) (q : ListQuery) :
    Except String HttpResponse :=
  let a := listFindAllArgs q
  match g.countFails with
  | some m => Except.error m
  | none =>
      let total := gwCount db
      match g.findAllFails with
      | some m => Except.ok ⟨500, RespBody.errorMsg m⟩
      | none =>
          Except.ok ⟨200, RespBody.page total (parsePage q)
            (-(Int.fdiv (-(total : Int)) (parseLimit q))) (gwFindAll db a)⟩

/-- `getTeacherById` (lines 161-169): `findByPk(req.params.id, { include:
db.Course })` inside `try`; 404 `{ message: 'Not found' }` when null, 200
with the entity and its courses otherwise, 500 on a gateway error. -/
def getTeacherById (g : GatewayFault) (db : Db) (id : Nat) :
    Except String HttpResponse :=
  match g.findByPkFails with
  | some m => Except.ok ⟨500, RespBody.errorMsg m⟩
  | none =>
      match gwFindByPk db id with
      | none => Except.ok ⟨404, RespBody.message "Not found"⟩
      | some t => Except.ok ⟨200, RespBody.entityWithCourses t (coursesOf db t.id)⟩

/-- `updateTeacher` (lines 197-206): fetch by key inside `try`; 404 when
null (and no further gateway call), otherwise `teacher.update(req.body)`
(partial merge) and 200 with the updated entity; 500 on a gateway error.
Returns the response, the successor state, and the gateway-call trace. -/
def updateTeacher (g : GatewayFault) (db : Db) (id : Nat) (body : TeacherPatch) :
    Except String (HttpResponse × Db × List GwCall) :=
  match g.findByPkFails with
  | some m => Except.ok (⟨500, RespBody.errorMsg m⟩, db, [GwCall.findByPk id])
  | none =>
      match gwFindByPk db id with
      | none => Except.ok (⟨404, RespBody.message "Not found"⟩, db, [GwCall.findByPk id])
      | some t =>
          match g.updateFails with
          | some m => Except.ok (⟨500, RespBody.errorMsg m⟩, db,
              [GwCall.findByPk id, GwCall.update id])
          | none =>
              let t' := applyPatch t body
              Except.ok (⟨200, RespBody.entity t'⟩, gwReplace db id t',
                [GwCall.findByPk id, GwCall.update id])

/-- `deleteTeacher` (lines 223-232): fetch by key inside `try`; 404 when
null (and no further gateway call), otherwise `teacher.destroy()` and 200
with `{ message: 'Deleted' }`; 500 on a gateway error.  Returns the
response, the successor state, and the gateway-call trace. -/
def deleteTeacher (g : GatewayFault) (db : Db) (id : Nat) :
    Except String (HttpResponse × Db × List GwCall) :=
  match g.findByPkFails with
  | some m => Except.ok (⟨500, RespBody.errorMsg m⟩, db, [GwCall.findByPk id])
  | none =>
      match gwFindByPk db id with
      | none => Except.ok (⟨404, RespBody.message "Not found"⟩, db, [GwCall.findByPk id])
      | some _ =>
          match g.destroyFails with
          | some m => Except.ok (⟨500, RespBody.errorMsg m⟩, db,
              [GwCall.findByPk id, GwCall.destroy id])
          | none =>
              Except.ok (⟨200, RespBody.message "Deleted"⟩, gwDestroy db id,
                [GwCall.findByPk id, GwCall.destroy id])

end TeacherApi

namespace TeacherApi

/-! ## Shared helper definitions and lemmas -/

/-- A sample database state: seven teachers, no courses, next key 8. -/
def sampleDb : Db :=
  ⟨[⟨1, "A", "M"⟩, ⟨2, "B", "P"⟩, ⟨3, "C", "Q"⟩, ⟨4, "D", "R"⟩,
    ⟨5, "E", "S"⟩, ⟨6, "F", "T"⟩, ⟨7, "G", "U"⟩], [], 8⟩

/-- The controller's `Math.ceil(total / limit)` term (encoded with integer
floor division on the negation) is the rational ceiling of `total / limit`
whenever `limit ≥ 1`. -/
theorem jsCeilDiv_eq_ceil (t : Nat) (l : Int) (hl : 1 ≤ l) :
    -(Int.fdiv (-(t : Int)) l) = ⌈(t : ℚ) / (l : ℚ)⌉ := by
  have hb : (0 : Int) ≤ l := by omega
  have hl0 : (0 : ℚ) < (l : ℚ) := by exact_mod_cast (by omega : (0 : Int) < l)
  rw [Int.fdiv_eq_ediv _ hb]
  symm
  rw [Int.ceil_eq_iff]
  have hq := Int.ediv_add_emod (-(t : Int)) l
  have hr0 : 0 ≤ (-(t : Int)) % l := Int.emod_nonneg _ (by omega)
  have hrl : (-(t : Int)) % l < l := Int.emod_lt_of_pos _ (by omega)
  constructor
  · rw [lt_div_iff₀ hl0]
    have hZ : (-(-(t : Int) / l) - 1) * l < (t : Int) := by nlinarith [hq, hr0, hrl]
    exact_mod_cast hZ
  · rw [div_le_iff₀ hl0]
    have hZ : (t : Int) ≤ (-(-(t : Int) / l)) * l := by nlinarith [hq, hr0]
    exact_mod_cast hZ

/-- A descending `findAll` result is pairwise non-increasing in `id`. -/
theorem gwFindAll_sorted_desc (db : Db) (a : FindAllArgs) (h : a.desc = true) :
    (gwFindAll db a).Sorted (fun x y => y.id ≤ x.id) := by
  unfold gwFindAll
  rw [if_pos h]
  exact List.Pairwise.sublist
    ((List.take_sublist _ _).trans (List.drop_sublist _ _))
    (@List.sorted_insertionSort Teacher (fun x y => y.id ≤ x.id) _
      ⟨fun x y => Nat.le_total y.id x.id⟩
      ⟨fun _ _ _ h1 h2 => Nat.le_trans h2 h1⟩ db.teachers)

/-- An ascending `findAll` result is pairwise non-decreasing in `id`. -/
theorem gwFindAll_sorted_asc (db : Db) (a : FindAllArgs) (h : a.desc = false) :
    (gwFindAll db a).Sorted (fun x y => x.id ≤ y.id) := by
  unfold gwFindAll
  rw [if_neg (by simp [h])]
  exact List.Pairwise.sublist
    ((List.take_sublist _ _).trans (List.drop_sublist _ _))
    (@List.sorted_insertionSort Teacher (fun x y => x.id ≤ y.id) _
      ⟨fun x y => Nat.le_total x.id y.id⟩
      ⟨fun _ _ _ h1 h2 => Nat.le_trans h1 h2⟩ db.teachers)

/-! ## Claims -/

/-- C1: the claim says every gateway error raised while handling a List
request — including one from the initial `db.Teacher.count()` call — is
contained and turned into a single 500 response.  The code awaits
`db.Teacher.count()` OUTSIDE the `try` block (line 117), so a rejection
there escapes the handler (`Except.error`: no HTTP response is produced),
contradicting the handler's own JSDoc (`@throws {500} On database or
server error, responds with error message`).  A `findAll` rejection, by
contrast, is indeed caught and answered with 500. -/
theorem c1_count_error_escapes :
    getAllTeachers { countFails := some "db down" } ⟨[], [], 1⟩ {} =
      Except.error "db down" ∧
    getAllTeachers { findAllFails := some "db down" } ⟨[], [], 1⟩ {} =
      Except.ok ⟨500, RespBody.errorMsg "db down"⟩ :=
  ⟨rfl, rfl⟩

/-- C2 counterexample: the claim says a supplied `limit`/`page` of zero is
passed through uncorrected; in fact `parseInt('0') || default` takes the
default, because `0` is falsy in JavaScript. -/
theorem c2_zero_defaulted_counterexample :
    parseLimit { limit := some "0" } = 10 ∧ parseLimit { limit := some "0" } ≠ 0 ∧
    parsePage { page := some "0" } = 1 ∧ parsePage { page := some "0" } ≠ 0 := by
  refine ⟨rfl, by decide, rfl, by decide⟩

/-- C2 (amended): `limit` and `page` fall back to their defaults (10 and 1)
when the supplied value is absent, non-numeric (`NaN`), or zero (zero is
falsy under the `||` fallback); any other value — negative values
included — is passed through uncorrected to the pagination computation. -/
theorem c2_default_on_nan_or_zero (q : ListQuery) :
    (parseIntOpt q.limit = none → parseLimit q = 10) ∧
    (parseIntOpt q.limit = some 0 → parseLimit q = 10) ∧
    (∀ v : Int, parseIntOpt q.limit = some v → v ≠ 0 → parseLimit q = v) ∧
    (parseIntOpt q.page = none → parsePage q = 1) ∧
    (parseIntOpt q.page = some 0 → parsePage q = 1) ∧
    (∀ v : Int, parseIntOpt q.page = some v → v ≠ 0 → parsePage q = v) ∧
    (listFindAllArgs q).limit = parseLimit q ∧
    (listFindAllArgs q).offset = (parsePage q - 1) * parseLimit q := by
  refine ⟨fun h => ?_, fun h => ?_, fun v h hv => ?_,
    fun h => ?_, fun h => ?_, fun v h hv => ?_, rfl, rfl⟩
  · simp [parseLimit, jsOrDefault, h]
  · simp [parseLimit, jsOrDefault, h]
  · simp [parseLimit, jsOrDefault, h, hv]
  · simp [parsePage, jsOrDefault, h]
  · simp [parsePage, jsOrDefault, h]
  · simp [parsePage, jsOrDefault, h, hv]

/-- C2 witness: a negative limit and page pass straight through. -/
theorem c2_default_on_nan_or_zero_witness :
    parseLimit { limit := some "-5" } = -5 ∧ parsePage { page := some "-2" } = -2 :=
  ⟨(c2_default_on_nan_or_zero { limit := some "-5" }).2.2.1 (-5) (by decide) (by decide),
   (c2_default_on_nan_or_zero { page := some "-2" }).2.2.2.2.2.1 (-2) (by decide) (by decide)⟩

/-- C3: when `findByPk` returns null, get-by-id, update, and delete all
answer 404 with `{ message: 'Not found' }` (in particular not 500), and
the mutating handlers leave the state untouched. -/
theorem c3_notfound_404 (db : Db) (id : Nat) (body : TeacherPatch)
    (h : gwFindByPk db id = none) :
    getTeacherById GatewayFault.ok db id =
      Except.ok ⟨404, RespBody.message "Not found"⟩ ∧
    updateTeacher GatewayFault.ok db id body =
      Except.ok (⟨404, RespBody.message "Not found"⟩, db, [GwCall.findByPk id]) ∧
    deleteTeacher GatewayFault.ok db id =
      Except.ok (⟨404, RespBody.message "Not found"⟩, db, [GwCall.findByPk id]) := by
  refine ⟨?_, ?_, ?_⟩ <;> simp [getTeacherById, updateTeacher, deleteTeacher, GatewayFault.ok, h]

/-- C3 witness: looking up key 9 in the sample database. -/
theorem c3_notfound_404_witness :
    getTeacherById GatewayFault.ok sampleDb 9 =
      Except.ok ⟨404, RespBody.message "Not found"⟩ :=
  (c3_notfound_404 sampleDb 9 {} (by decide)).1

/-- C4: for a List request whose effective `limit` and `page` are at least
1, the 200 response reports `meta.totalPages = ceil(total / limit)` with
`total` the unfiltered table count, the query is issued with offset
`(page - 1) * limit`, and at most `limit` records come back. -/
theorem c4_pagination (db : Db) (q : ListQuery)
    (hl : 1 ≤ parseLimit q) (hp : 1 ≤ parsePage q) :
    getAllTeachers GatewayFault.ok db q =
      Except.ok ⟨200, RespBody.page (gwCount db) (parsePage q)
        ⌈(gwCount db : ℚ) / (parseLimit q : ℚ)⌉
        (gwFindAll db (listFindAllArgs q))⟩ ∧
    (listFindAllArgs q).offset = (parsePage q - 1) * parseLimit q ∧
    (gwFindAll db (listFindAllArgs q)).length ≤ (parseLimit q).toNat := by
  have _hp := hp
  refine ⟨?_, rfl, ?_⟩
  · rw [← jsCeilDiv_eq_ceil (gwCount db) (parseLimit q) hl]
    rfl
  · exact List.length_take_le _ _

/-- C4 witness: limit 3, page 2 on the seven-row sample database. -/
theorem c4_pagination_witness :
    (1 : Int) ≤ parseLimit { limit := some "3", page := some "2" } ∧
    (1 : Int) ≤ parsePage { limit := some "3", page := some "2" } ∧
    (gwFindAll sampleDb (listFindAllArgs { limit := some "3", page := some "2" })).length ≤
      (parseLimit { limit := some "3", page := some "2" }).toNat :=
  ⟨by decide, by decide,
   (c4_pagination sampleDb { limit := some "3", page := some "2" }
     (by decide) (by decide)).2.2⟩

/-- C5: descending order is selected exactly by the case-sensitive literal
`desc`; the response data is the `findAll` result, which is pairwise
non-increasing in `id` when `sort=desc` and pairwise non-decreasing for
any other (or absent) value. -/
theorem c5_sort_desc_exact_match (db : Db) (q : ListQuery) :
    (parseSort q = true ↔ q.sort = some "desc") ∧
    (∃ tp, getAllTeachers GatewayFault.ok db q =
      Except.ok ⟨200, RespBody.page (gwCount db) (parsePage q) tp
        (gwFindAll db (listFindAllArgs q))⟩) ∧
    (q.sort = some "desc" →
      (gwFindAll db (listFindAllArgs q)).Sorted (fun x y => y.id ≤ x.id)) ∧
    (q.sort ≠ some "desc" →
      (gwFindAll db (listFindAllArgs q)).Sorted (fun x y => x.id ≤ y.id)) := by
  refine ⟨by simp [parseSort], ⟨_, rfl⟩, fun h => ?_, fun h => ?_⟩
  · exact gwFindAll_sorted_desc db _ (by simp [listFindAllArgs, parseSort, h])
  · exact gwFindAll_sorted_asc db _ (by simp [listFindAllArgs, parseSort, h])

/-- C5 witness: `sort=desc` vs `sort=asc` on the sample database. -/
theorem c5_sort_desc_exact_match_witness :
    (gwFindAll sampleDb (listFindAllArgs { sort := some "desc" })).Sorted
      (fun x y => y.id ≤ x.id) ∧
    (gwFindAll sampleDb (listFindAllArgs { sort := some "asc" })).Sorted
      (fun x y => x.id ≤ y.id) :=
  ⟨(c5_sort_desc_exact_match sampleDb { sort := some "desc" }).2.2.1 rfl,
   (c5_sort_desc_exact_match sampleDb { sort := some "asc" }).2.2.2 (by decide)⟩

/-- Dropping the non-`course` tokens: the filter-map over the token list
keeps one `course` include per token equal to `course` and nothing else. -/
theorem filterMap_course_eq_replicate (l : List (List Char)) :
    l.filterMap (fun m => if m = "course".data then some IncludeModel.course else none) =
    List.replicate (l.countP (fun m => m = "course".data)) IncludeModel.course := by
  induction l with
  | nil => rfl
  | cons a l ih =>
      by_cases hc : a = "course".data
      · simp [List.filterMap_cons, List.countP_cons, hc, ih, List.replicate_succ]
      · simp [List.filterMap_cons, List.countP_cons, hc, ih]

/-- C6: an absent or empty `populate` yields an empty include set; a
supplied `populate` is lowercased, split on commas, and contributes one
Course include per token equal to `course` (hence the match is
case-insensitive), every other token being silently dropped. -/
theorem c6_populate_tokens (q : ListQuery) :
    ((q.populate = none ∨ q.populate = some "") → (listFindAllArgs q).includes = []) ∧
    (∀ s, q.populate = some s → s ≠ "" →
      (listFindAllArgs q).includes =
        List.replicate ((splitComma (jsToLower s.data)).countP
          (fun m => m = "course".data)) IncludeModel.course) := by
  constructor
  · rintro (h | h) <;> simp [listFindAllArgs, parsePopulateStr, parseIncludes, h]
  · intro s hs hne
    simp only [listFindAllArgs, parsePopulateStr, hs]
    rw [if_neg hne]
    unfold parseIncludes
    split
    · rename_i hnil
      rw [hnil]
      rfl
    · exact filterMap_course_eq_replicate _

/-- C6 witness: `populate=Course,xyz,COURSE` recognizes the two course
tokens case-insensitively and drops `xyz`. -/
theorem c6_populate_tokens_witness :
    (listFindAllArgs { populate := some "Course,xyz,COURSE" }).includes =
      [IncludeModel.course, IncludeModel.course] := by
  rw [(c6_populate_tokens { populate := some "Course,xyz,COURSE" }).2
    "Course,xyz,COURSE" rfl (by decide)]
  rfl

/-- C7: the create handler hands `req.body` to the gateway's create
operation as-is (the response is a function of `gwCreate db body` alone):
a gateway success yields 201 with the created entity carrying the
generated key, and any gateway error — schema violation or injected
infrastructure failure — yields 500 with `{ error: <message> }`. -/
theorem c7_create_passthrough (db : Db) (body : CreateBody) :
    (∀ t db', gwCreate db body = Except.ok (t, db') →
      createTeacher GatewayFault.ok db body =
        Except.ok (⟨201, RespBody.entity t⟩, db')) ∧
    (∀ m, gwCreate db body = Except.error m →
      createTeacher GatewayFault.ok db body =
        Except.ok (⟨500, RespBody.errorMsg m⟩, db)) ∧
    (∀ m, createTeacher { createFails := some m } db body =
      Except.ok (⟨500, RespBody.errorMsg m⟩, db)) ∧
    (∀ t db', gwCreate db body = Except.ok (t, db') → t.id = db.nextId) := by
  refine ⟨fun t db' h => by simp [createTeacher, GatewayFault.ok, h],
          fun m h => by simp [createTeacher, GatewayFault.ok, h],
          fun m => rfl,
          fun t db' h => ?_⟩
  obtain ⟨bn, bd⟩ := body
  rcases bn with _ | n <;> rcases bd with _ | d <;> simp [gwCreate] at h
  rw [← h.1]

/-- C7 witness: creating Alice/Math in the sample database generates key 8. -/
theorem c7_create_passthrough_witness :
    createTeacher GatewayFault.ok sampleDb
        { name := some "Alice", department := some "Math" } =
      Except.ok (⟨201, RespBody.entity ⟨8, "Alice", "Math"⟩⟩,
        ⟨sampleDb.teachers ++ [⟨8, "Alice", "Math"⟩], sampleDb.courses, 9⟩) :=
  (c7_create_passthrough sampleDb { name := some "Alice", department := some "Math" }).1
    ⟨8, "Alice", "Math"⟩ _ rfl

/-- C8: updating an existing teacher applies the partial merge — supplied
fields overwrite, omitted fields (and the key) are untouched — and in
particular an empty body returns 200 with the unmodified entity and
leaves the table exactly as it was (keys being unique). -/
theorem c8_partial_update (db : Db) (id : Nat) (t : Teacher) (p : TeacherPatch)
    (h : gwFindByPk db id = some t)
    (hnd : (db.teachers.map Teacher.id).Nodup) :
    updateTeacher GatewayFault.ok db id p =
      Except.ok (⟨200, RespBody.entity (applyPatch t p)⟩,
        gwReplace db id (applyPatch t p), [GwCall.findByPk id, GwCall.update id]) ∧
    (applyPatch t p).id = t.id ∧
    (p.name = none → (applyPatch t p).name = t.name) ∧
    (p.department = none → (applyPatch t p).department = t.department) ∧
    (p.name = none → p.department = none →
      applyPatch t p = t ∧
      updateTeacher GatewayFault.ok db id p =
        Except.ok (⟨200, RespBody.entity t⟩, db,
          [GwCall.findByPk id, GwCall.update id])) := by
  have htmem : t ∈ db.teachers := List.mem_of_find?_eq_some h
  have htid : t.id = id := by simpa using List.find?_some h
  have hrep : gwReplace db id t = db := by
    unfold gwReplace
    have hmap : db.teachers.map (fun u => if u.id = id then t else u) =
        db.teachers.map (fun u => u) := by
      apply List.map_congr_left
      intro u hu
      by_cases hc : u.id = id
      · rw [if_pos hc]
        exact (List.inj_on_of_nodup_map hnd hu htmem (by rw [hc, htid])).symm
      · rw [if_neg hc]
    rw [hmap, List.map_id']
  refine ⟨by simp [updateTeacher, GatewayFault.ok, h], rfl,
          fun hn => by simp [applyPatch, hn],
          fun hd => by simp [applyPatch, hd],
          fun hn hd => ?_⟩
  have hap : applyPatch t p = t := by simp [applyPatch, hn, hd]
  refine ⟨hap, ?_⟩
  simp [updateTeacher, GatewayFault.ok, h, hap, hrep]

/-- C8 witness: updating teacher 2's department, and an empty-body update
of teacher 2, in the sample database. -/
theorem c8_partial_update_witness :
    updateTeacher GatewayFault.ok sampleDb 2 { department := some "X" } =
      Except.ok (⟨200, RespBody.entity (applyPatch ⟨2, "B", "P"⟩
          { department := some "X" })⟩,
        gwReplace sampleDb 2 (applyPatch ⟨2, "B", "P"⟩ { department := some "X" }),
        [GwCall.findByPk 2, GwCall.update 2]) ∧
    updateTeacher GatewayFault.ok sampleDb 2 {} =
      Except.ok (⟨200, RespBody.entity ⟨2, "B", "P"⟩⟩, sampleDb,
        [GwCall.findByPk 2, GwCall.update 2]) :=
  ⟨(c8_partial_update sampleDb 2 ⟨2, "B", "P"⟩ { department := some "X" }
      (by decide) (by decide)).1,
   ((c8_partial_update sampleDb 2 ⟨2, "B", "P"⟩ {} (by decide) (by decide)).2.2.2.2
      rfl rfl).2⟩

/-- C9: deleting an existing teacher removes the row permanently and
answers 200 with `{ message: 'Deleted' }` (not 204); an immediately
repeated delete of the same key finds nothing and answers 404. -/
theorem c9_delete_then_404 (db : Db) (id : Nat) (t : Teacher)
    (h : gwFindByPk db id = some t) :
    deleteTeacher GatewayFault.ok db id =
      Except.ok (⟨200, RespBody.message "Deleted"⟩, gwDestroy db id,
        [GwCall.findByPk id, GwCall.destroy id]) ∧
    gwFindByPk (gwDestroy db id) id = none ∧
    deleteTeacher GatewayFault.ok (gwDestroy db id) id =
      Except.ok (⟨404, RespBody.message "Not found"⟩, gwDestroy db id,
        [GwCall.findByPk id]) := by
  have hnone : gwFindByPk (gwDestroy db id) id = none := by
    unfold gwFindByPk gwDestroy
    rw [List.find?_eq_none]
    intro u hu
    simp only [List.mem_filter] at hu
    simpa using hu.2
  exact ⟨by simp [deleteTeacher, GatewayFault.ok, h], hnone,
    by simp [deleteTeacher, GatewayFault.ok, hnone]⟩

/-- C9 witness: delete teacher 3 twice in the sample database. -/
theorem c9_delete_then_404_witness :
    deleteTeacher GatewayFault.ok sampleDb 3 =
      Except.ok (⟨200, RespBody.message "Deleted"⟩, gwDestroy sampleDb 3,
        [GwCall.findByPk 3, GwCall.destroy 3]) ∧
    gwFindByPk (gwDestroy sampleDb 3) 3 = none ∧
    deleteTeacher GatewayFault.ok (gwDestroy sampleDb 3) 3 =
      Except.ok (⟨404, RespBody.message "Not found"⟩, gwDestroy sampleDb 3,
        [GwCall.findByPk 3]) :=
  c9_delete_then_404 sampleDb 3 ⟨3, "C", "Q"⟩ (by decide)

/-- C10: on the 404 path of update and delete the only gateway call made
is the key lookup — the trace holds no update and no destroy call — and
the state is returned exactly as it was. -/
theorem c10_no_mutation_on_404 (db : Db) (id : Nat) (p : TeacherPatch)
    (h : gwFindByPk db id = none) :
    updateTeacher GatewayFault.ok db id p =
      Except.ok (⟨404, RespBody.message "Not found"⟩, db, [GwCall.findByPk id]) ∧
    deleteTeacher GatewayFault.ok db id =
      Except.ok (⟨404, RespBody.message "Not found"⟩, db, [GwCall.findByPk id]) ∧
    (∀ j : Nat, GwCall.update j ∉ [GwCall.findByPk id] ∧
      GwCall.destroy j ∉ [GwCall.findByPk id]) :=
  ⟨by simp [updateTeacher, GatewayFault.ok, h],
   by simp [deleteTeacher, GatewayFault.ok, h],
   fun j => ⟨by simp, by simp⟩⟩

/-- C10 witness: update and delete of the missing key 42. -/
theorem c10_no_mutation_on_404_witness :
    updateTeacher GatewayFault.ok sampleDb 42 {} =
      Except.ok (⟨404, RespBody.message "Not found"⟩, sampleDb,
        [GwCall.findByPk 42]) ∧
    deleteTeacher GatewayFault.ok sampleDb 42 =
      Except.ok (⟨404, RespBody.message "Not found"⟩, sampleDb,
        [GwCall.findByPk 42]) :=
  ⟨(c10_no_mutation_on_404 sampleDb 42 {} (by decide)).1,
   (c10_no_mutation_on_404 sampleDb 42 {} (by decide)).2.1⟩

end TeacherApi
